import Mathlib

/-!
Verification of the usage/cost accounting and quota subsystem of the
Lukas AI repository, shallowly embedded in Lean 4.

The embedding models the two usage stores present in the source:

* the payments-side `usage_tracking` table
  (src/app/features/payments/queries.ts, src/app/features/payments/schema.ts):
  one row per (user, feature, billing period) holding a `usage_count`;
* the analytics-side `ai_usage_tracking` table
  (src/app/features/lukas-ai/api/analytics.tsx and the drizzle schema):
  one row per AI call.

Database tables become lists of rows, queries become pure functions on
those lists, and each loader/action becomes an explicit state-passing
function.  Timestamps are modelled as `Int` epoch values; the calendar
arithmetic that produces the current month's bounds is abstracted into
explicit `periodStart`/`periodEnd` parameters.
-/

namespace LukasAI

/-- A row of the payments `usage_tracking` table
(src/app/features/payments/schema.ts): one counter per
(user, feature, billing period).  `usage_count` is a double-precision
number in the schema; every code path adds integers to it, so it is
modelled as `Int`. -/
structure UsageRow where
  id : Nat
  user_id : String
  feature : String
  usage_count : Int
  period_start : Int
  period_end : Int
deriving Repr, DecidableEq

/-- The drizzle `where` clause shared by `trackSubscriptionUsage` and
`checkUsageLimits` (queries.ts lines 144-151 and 189-196):
`user_id = u AND feature = f AND period_start >= ps AND period_end <= pe`. -/
def usageRowMatches (u f : String) (ps pe : Int) (r : UsageRow) : Bool :=
  r.user_id == u && r.feature == f && decide (ps ≤ r.period_start)
    && decide (r.period_end ≤ pe)

/-- The `select ... limit 1` over `usage_tracking` used by both
`trackSubscriptionUsage` and `checkUsageLimits`. -/
def findUsage (store : List UsageRow) (u f : String) (ps pe : Int) :
    Option UsageRow :=
  store.find? (usageRowMatches u f ps pe)

/-- `trackSubscriptionUsage` (queries.ts lines 132-176): if a row for the
user, feature and current period already exists, its `usage_count` is
updated in place to `existing + usage`; otherwise a fresh row with
`usage_count = usage` is inserted.  `nextId` stands for the generated
primary key of the inserted row. -/
def trackSubscriptionUsage (store : List UsageRow) (nextId : Nat)
    (u f : String) (usage : Int) (ps pe : Int) : List UsageRow :=
  match findUsage store u f ps pe with
  | some row =>
      store.map (fun r =>
        if r.id = row.id then { r with usage_count := r.usage_count + usage }
        else r)
  | none => store ++ [⟨nextId, u, f, usage, ps, pe⟩]

/-- The hardcoded Basic-plan limit table used by `checkUsageLimits`
(queries.ts line 204) and by the fallback branches of `checkUserLimits`
(lines 313 and 323): 50 for `document_analysis`, 25 otherwise. -/
def limitFor (feature : String) : Int :=
  if feature == "document_analysis" then 50 else 25

/-- The record returned by `checkUsageLimits`:
`{ exceeded, remaining }` (queries.ts lines 199-208). -/
structure CheckResult where
  exceeded : Bool
  remaining : Int
deriving Repr, DecidableEq

/-- `checkUsageLimits` (queries.ts lines 181-209): select the (first)
usage row for the user, feature and period; with no row the function
returns `{ exceeded: false, remaining: 0 }`; with a row it compares
`usage_count` against the hardcoded Basic limit, where
`exceeded = usage_count >= limit` and
`remaining = Math.max(0, limit - usage_count)`. -/
def checkUsageLimits (store : List UsageRow) (u f : String) (ps pe : Int) :
    CheckResult :=
  match findUsage store u f ps pe with
  | none => { exceeded := false, remaining := 0 }
  | some row =>
      let limit := limitFor f
      { exceeded := decide (limit ≤ row.usage_count)
      , remaining := max 0 (limit - row.usage_count) }

/-- The usage count a period holds for a user and feature: the stored
counter when a row exists, `0` otherwise. -/
def usageCountOf (store : List UsageRow) (u f : String) (ps pe : Int) : Int :=
  match findUsage store u f ps pe with
  | some row => row.usage_count
  | none => 0

/-- A row of `user_subscriptions` as read by `getUserSubscription`
(second draft, queries.ts lines 254-260); only the fields
`checkUserLimits` consults are modelled.  `plan_id` is nullable. -/
structure SubscriptionRow where
  user_id : String
  plan_id : Option String
deriving Repr, DecidableEq

/-- A row of `subscription_plans`; `features` is the jsonb map from
feature name to its limit object, where the stored limit may be `null`
(modelled as `none`, meaning unlimited).  A feature key missing from the
map is the `undefined` case of `planFeatures[feature]?.limit` and is
likewise unlimited. -/
structure PlanRow where
  id : String
  features : List (String × Option Int)
deriving Repr, DecidableEq

/-- The three shapes of object `checkUserLimits` can return
(queries.ts lines 309-348): the hardcoded-limit fallback
`{ hasLimit: true, limit }`, the unlimited case
`{ hasLimit: false, limit: null }`, and the full
`{ hasLimit: true, limit, currentUsage, remaining }` record. -/
inductive UserLimitsResult where
  | fallback (limit : Int)
  | unlimited
  | limited (limit currentUsage remaining : Int)
deriving Repr, DecidableEq

/-- The `limit 1` lookup of the user's subscription row. -/
def findSubscription (subs : List SubscriptionRow) (u : String) :
    Option SubscriptionRow :=
  subs.find? (fun s => s.user_id == u)

/-- The `limit 1` lookup of a plan by id; `checkUserLimits` passes
`userSub[0].plan_id || ""` for the id. -/
def findPlan (plans : List PlanRow) (pid : String) : Option PlanRow :=
  plans.find? (fun p => p.id == pid)

/-- The `planFeatures[feature]?.limit` lookup: `none` when the feature
key is absent or its stored limit is `null`. -/
def planLimit (plan : PlanRow) (f : String) : Option Int :=
  (plan.features.lookup f).join

/-- `checkUserLimits` (queries.ts lines 309-348).  With no subscription
row or no plan row it falls back to the hardcoded Basic limits.  When
the plan's limit for the feature is `null`/missing it reports
unlimited.  Otherwise it reads the current usage row (count `0` when
absent) and returns `remaining = limit - currentUsage` with no clamping. -/
def checkUserLimits (subs : List SubscriptionRow) (plans : List PlanRow)
    (usage : List UsageRow) (u f : String) (ps pe : Int) : UserLimitsResult :=
  match findSubscription subs u with
  | none => .fallback (limitFor f)
  | some sub =>
      match findPlan plans (sub.plan_id.getD "") with
      | none => .fallback (limitFor f)
      | some plan =>
          match planLimit plan f with
          | none => .unlimited
          | some limit =>
              .limited limit (usageCountOf usage u f ps pe)
                (limit - usageCountOf usage u f ps pe)

/-- The payload of the `track-usage` action after the form values have
been coerced to numbers (analytics.tsx lines 181-192), before zod
validation.  `cost` is a decimal with six fractional digits in the
schema; it is modelled in integral micro-dollars. -/
structure UsageEventInput where
  feature : String
  model : String
  tokensUsed : Int
  inputTokens : Int
  outputTokens : Int
  cost : Option Int
  responseTime : Option Int
  success : Bool
deriving Repr, DecidableEq

/-- The closed feature enum of `usageTrackingSchema`
(analytics.tsx line 17). -/
def validFeature (f : String) : Bool :=
  f == "chat" || f == "document_qa" || f == "meeting_summary"
    || f == "workflow"

/-- `usageTrackingSchema.parse` (analytics.tsx lines 16-27): the feature
must be in the closed enum, the model name non-empty, `tokensUsed >= 1`,
`inputTokens >= 0` and `outputTokens >= 0`.  A failing parse throws a
`ZodError`, modelled as `none`.  No condition relates `tokensUsed` to
`inputTokens + outputTokens`. -/
def parseUsageTracking (i : UsageEventInput) : Option UsageEventInput :=
  if validFeature i.feature && decide (1 ≤ i.model.length)
      && decide (1 ≤ i.tokensUsed) && decide (0 ≤ i.inputTokens)
      && decide (0 ≤ i.outputTokens)
  then some i else none

/-- A row of the analytics `ai_usage_tracking` table (drizzle schema):
one immutable record per AI call. -/
structure AiUsageEvent where
  id : Nat
  userId : String
  feature : String
  model : String
  tokensUsed : Int
  inputTokens : Int
  outputTokens : Int
  cost : Option Int
  responseTime : Option Int
  success : Bool
  createdAt : Int
deriving Repr, DecidableEq

/-- The row the `track-usage` insert builds from the parsed payload
(analytics.tsx lines 194-200): the caller-supplied numbers are stored
verbatim.  `nextId` stands for the generated primary key and `now` for
the row's creation timestamp. -/
def mkAiUsageEvent (nextId : Nat) (userId : String) (now : Int)
    (d : UsageEventInput) : AiUsageEvent :=
  { id := nextId
  , userId := userId
  , feature := d.feature
  , model := d.model
  , tokensUsed := d.tokensUsed
  , inputTokens := d.inputTokens
  , outputTokens := d.outputTokens
  , cost := d.cost
  , responseTime := d.responseTime
  , success := d.success
  , createdAt := now }

/-- The `track-usage` case of the analytics action
(analytics.tsx lines 180-203): parse the payload and, on success,
insert exactly one new row into `ai_usage_tracking`.  `none` is the
ZodError response; the function consults nothing but the payload and
the analytics store — in particular no quota-check result. -/
def trackUsageAction (store : List AiUsageEvent) (nextId : Nat)
    (userId : String) (now : Int) (i : UsageEventInput) :
    Option (List AiUsageEvent) :=
  match parseUsageTracking i with
  | none => none
  | some d => some (store ++ [mkAiUsageEvent nextId userId now d])

/-- The loader's row filter (analytics.tsx lines 93-98):
`userId = u AND createdAt >= startDate`. -/
def inPeriod (u : String) (start : Int) (e : AiUsageEvent) : Bool :=
  e.userId == u && decide (start ≤ e.createdAt)

/-- The distinct features of a row set, in first-appearance order: the
grouping keys of the loader's `groupBy(aiUsageTracking.feature)`. -/
def featuresOf (events : List AiUsageEvent) : List String :=
  (events.map (fun e => e.feature)).eraseDups

/-- One row of the loader's `usageStats` result
(analytics.tsx lines 84-99): the select projects exactly the columns
`feature`, `totalTokens`, `totalCost`, `totalRequests` and
`avgResponseTime`.  SQL `sum`/`avg` over the nullable columns yield
`NULL` when no non-null input exists, modelled with `Option`. -/
structure UsageStat where
  feature : String
  totalTokens : Int
  totalCost : Option Int
  totalRequests : Nat
  avgResponseTime : Option Rat
deriving Repr, DecidableEq

/-- The aggregate row the grouped query produces for one feature out of
an already user/period-filtered row set. -/
def statFor (events : List AiUsageEvent) (f : String) : UsageStat :=
  let rows := events.filter (fun e => e.feature == f)
  let costs := rows.filterMap (fun e => e.cost)
  let rts := rows.filterMap (fun e => e.responseTime)
  { feature := f
  , totalTokens := (rows.map (fun e => e.tokensUsed)).sum
  , totalCost := if costs.isEmpty then none else some costs.sum
  , totalRequests := rows.length
  , avgResponseTime :=
      if rts.isEmpty then none
      else some ((rts.sum : Rat) / (rts.length : Rat)) }

/-- The grouped aggregation applied to a filtered row set. -/
def statsOf (events : List AiUsageEvent) : List UsageStat :=
  (featuresOf events).map (statFor events)

/-- The loader's `usageStats` query (analytics.tsx lines 84-105):
filter `ai_usage_tracking` to the user's rows in the period, then group
by feature and aggregate. -/
def loaderUsageStats (store : List AiUsageEvent) (u : String)
    (start : Int) : List UsageStat :=
  statsOf (store.filter (inPeriod u start))

/-- The loader as a state transformer over the usage store: it runs
only select queries (analytics.tsx lines 60-171 contain no insert,
update or delete), so the store component of the result is the input
store. -/
def loaderRead (store : List AiUsageEvent) (u : String) (start : Int) :
    List UsageStat × List AiUsageEvent :=
  (loaderUsageStats store u start, store)

/-- A value held by one field of a `usageStats` row, for modelling
JavaScript property access on the row object. -/
inductive StatValue where
  | str (v : String)
  | int (v : Int)
  | nat (v : Nat)
  | optInt (v : Option Int)
  | optRat (v : Option Rat)
deriving Repr, DecidableEq

/-- JavaScript property access on a `usageStats` row: the loader's
select (analytics.tsx lines 85-91) projects exactly the five columns
below, so any other property name reads `undefined` (`none`). -/
def statField (s : UsageStat) : String → Option StatValue
  | "feature" => some (.str s.feature)
  | "totalTokens" => some (.int s.totalTokens)
  | "totalCost" => some (.optInt s.totalCost)
  | "totalRequests" => some (.nat s.totalRequests)
  | "avgResponseTime" => some (.optRat s.avgResponseTime)
  | _ => none

/-- The screen expression `stat.successRate.toFixed(1)`
(src/unnamed/part_004 line 161): read the `successRate` property of the
stat row and call a method on it.  When the property is `undefined` the
method call throws a TypeError, modelled as `none`. -/
def renderSuccessRateText (s : UsageStat) : Option StatValue :=
  statField s "successRate"

/-- A row of `ai_optimization_suggestions` (drizzle schema):
`isApplied` defaults to false and `appliedDate` is nullable. -/
structure Suggestion where
  id : String
  userId : String
  category : String
  title : String
  description : String
  impact : String
  estimatedSavings : Option Int
  implementation : Option String
  isApplied : Bool
  appliedDate : Option Int
deriving Repr, DecidableEq

/-- The per-row update of the `apply-optimization` action
(analytics.tsx lines 269-282): rows whose id matches get
`isApplied := true` and `appliedDate := now`; every other row is left
alone. -/
def applyUpd (sid : String) (now : Int) (s : Suggestion) : Suggestion :=
  if s.id == sid then { s with isApplied := true, appliedDate := some now }
  else s

/-- The `apply-optimization` action applied to the suggestions store:
`update ... set {isApplied, appliedDate} where id = suggestionId`. -/
def applyOptimization (store : List Suggestion) (sid : String)
    (now : Int) : List Suggestion :=
  store.map (applyUpd sid now)

/-- The `delete-suggestion` action (analytics.tsx lines 284-292):
`delete from ai_optimization_suggestions where id = suggestionId`. -/
def deleteSuggestion (store : List Suggestion) (sid : String) :
    List Suggestion :=
  store.filter (fun s => !(s.id == sid))

/-! Concrete stores and inputs used by the scenario theorems and the
witnesses below. -/

/-- The payments usage store after one `trackSubscriptionUsage` call of
one `document_analysis` use for the period `[0, 100]`, starting from an
empty table. -/
def ledgerStep1 : List UsageRow :=
  trackSubscriptionUsage [] 0 "u1" "document_analysis" 1 0 100

/-- The same store after a second identical call. -/
def ledgerStep2 : List UsageRow :=
  trackSubscriptionUsage ledgerStep1 1 "u1" "document_analysis" 1 0 100

/-- The single row `ledgerStep1` holds. -/
def ledgerRow0 : UsageRow :=
  { id := 0, user_id := "u1", feature := "document_analysis"
  , usage_count := 1, period_start := 0, period_end := 100 }

/-- The payments usage store reached from empty by 49
`trackSubscriptionUsage` calls of one `document_analysis` use each. -/
def store49 : List UsageRow :=
  (List.range 49).foldl
    (fun s i => trackSubscriptionUsage s i "u1" "document_analysis" 1 0 100)
    []

/-- `store49` after a fiftieth recorded use. -/
def store50 : List UsageRow :=
  trackSubscriptionUsage store49 49 "u1" "document_analysis" 1 0 100

/-- A subscription row putting user `u1` on the basic plan. -/
def basicSubs : List SubscriptionRow :=
  [{ user_id := "u1", plan_id := some "basic" }]

/-- A basic plan whose `document_analysis` limit is 50. -/
def basicPlans : List PlanRow :=
  [{ id := "basic", features := [("document_analysis", some 50)] }]

/-- A usage store in which user `u1` has already recorded 60
`document_analysis` uses this period — ten over the basic limit. -/
def overUsage : List UsageRow :=
  [{ id := 0, user_id := "u1", feature := "document_analysis"
   , usage_count := 60, period_start := 0, period_end := 100 }]

/-- A subscription row putting user `u2` on the pro plan. -/
def proSubs : List SubscriptionRow :=
  [{ user_id := "u2", plan_id := some "pro" }]

/-- A pro plan whose `document_analysis` limit is stored as `null`
(unlimited). -/
def proPlans : List PlanRow :=
  [{ id := "pro", features := [("document_analysis", none)] }]

/-- A usage store in which user `u2` has recorded 10000
`document_analysis` uses this period. -/
def heavyUsage : List UsageRow :=
  [{ id := 7, user_id := "u2", feature := "document_analysis"
   , usage_count := 10000, period_start := 0, period_end := 100 }]

/-- A well-formed `track-usage` payload whose token total agrees with
the sum of its parts. -/
def chatInput : UsageEventInput :=
  { feature := "chat", model := "gpt-4", tokensUsed := 120
  , inputTokens := 80, outputTokens := 40, cost := none
  , responseTime := some 900, success := true }

/-- A `track-usage` payload whose caller-supplied total (100) disagrees
with `inputTokens + outputTokens` (30). -/
def badTotalInput : UsageEventInput :=
  { feature := "chat", model := "gpt-4", tokensUsed := 100
  , inputTokens := 10, outputTokens := 20, cost := none
  , responseTime := none, success := true }

/-- An analytics store holding one recorded chat call for user `u1`. -/
def aiDemoStore : List AiUsageEvent :=
  [{ id := 0, userId := "u1", feature := "chat", model := "gpt-4"
   , tokensUsed := 120, inputTokens := 80, outputTokens := 40
   , cost := some 42, responseTime := some 900, success := true
   , createdAt := 5 }]

/-- The same store with one extra event that falls outside the queried
period (its `createdAt` precedes the period start `0`). -/
def aiDemoStoreLater : List AiUsageEvent :=
  aiDemoStore ++
    [{ id := 1, userId := "u1", feature := "chat", model := "gpt-4"
     , tokensUsed := 10, inputTokens := 5, outputTokens := 5
     , cost := none, responseTime := none, success := true
     , createdAt := -3 }]

/-- A stored optimization suggestion in its initial (proposed) state. -/
def demoSuggestion : Suggestion :=
  { id := "sg1", userId := "u1", category := "cost", title := "t"
  , description := "d", impact := "high", estimatedSavings := none
  , implementation := none, isApplied := false, appliedDate := none }

/-- C1 counterexample: the payments usage store is not an append-only
ledger.  Starting from an empty table, recording one `document_analysis`
use creates row 0 with `usage_count = 1`; recording a second use does
not append a row — the store still holds exactly one row, and the
already-written row 0 now carries `usage_count = 2`.
`trackSubscriptionUsage` mutated a stored usage record in place. -/
theorem usage_counter_updated_in_place :
    ledgerStep1
        = [{ id := 0, user_id := "u1", feature := "document_analysis"
           , usage_count := 1, period_start := 0, period_end := 100 }]
      ∧ ledgerStep2
        = [{ id := 0, user_id := "u1", feature := "document_analysis"
           , usage_count := 2, period_start := 0, period_end := 100 }]
      ∧ ledgerStep2.length = ledgerStep1.length := by
  decide

/-- C1 amended: the two usage stores behave differently.  The analytics
`ai_usage_tracking` store is an append-only ledger — the `track-usage`
action only ever appends one new row, leaving every existing row
unchanged, and its aggregates are read-time sums.  The payments
`usage_tracking` table is not a ledger: when a row for the user, feature
and period already exists, `trackSubscriptionUsage` keeps the store the
same length and increments that row's stored `usage_count` in place. -/
theorem ledger_split_amended :
    (∀ (store : List AiUsageEvent) (nextId : Nat) (u : String) (now : Int)
       (i d : UsageEventInput), parseUsageTracking i = some d →
       trackUsageAction store nextId u now i
         = some (store ++ [mkAiUsageEvent nextId u now d]))
    ∧ (∀ (store : List UsageRow) (nextId : Nat) (u f : String)
        (usage ps pe : Int) (row : UsageRow),
        findUsage store u f ps pe = some row →
        (trackSubscriptionUsage store nextId u f usage ps pe).length
            = store.length
          ∧ { row with usage_count := row.usage_count + usage }
              ∈ trackSubscriptionUsage store nextId u f usage ps pe) := by
  constructor
  · intro store nextId u now i d h
    unfold trackUsageAction
    rw [h]
  · intro store nextId u f usage ps pe row h
    have hrow : row ∈ store := by
      unfold findUsage at h
      exact List.mem_of_find?_eq_some h
    unfold trackSubscriptionUsage
    rw [h]
    constructor
    · exact List.length_map store _
    · have hmem :
          (fun r => if r.id = row.id
              then { r with usage_count := r.usage_count + usage } else r) row
            ∈ store.map (fun r => if r.id = row.id
                then { r with usage_count := r.usage_count + usage } else r) :=
        List.mem_map_of_mem _ hrow
      simpa using hmem

/-- C1 witness: the amended theorem applied to concrete stores — one
append on the empty analytics store, and one in-place increment of the
row `ledgerStep1` already holds. -/
theorem ledger_split_amended_witness :
    trackUsageAction [] 0 "u1" 5 chatInput
        = some ([] ++ [mkAiUsageEvent 0 "u1" 5 chatInput])
      ∧ ((trackSubscriptionUsage ledgerStep1 1 "u1" "document_analysis"
            1 0 100).length = ledgerStep1.length
        ∧ { ledgerRow0 with
              usage_count := ledgerRow0.usage_count + 1 }
            ∈ trackSubscriptionUsage ledgerStep1 1 "u1" "document_analysis"
                1 0 100) :=
  ⟨ledger_split_amended.1 [] 0 "u1" 5 chatInput chatInput (by decide),
   ledger_split_amended.2 ledgerStep1 1 "u1" "document_analysis" 1 0 100
     ledgerRow0 (by decide)⟩

/-- C2: `checkUsageLimits` reports `exceeded = true` exactly when the
period's usage count is at least the (always non-null, hardcoded) limit
for the feature; and when a plan stores a `null` limit for the feature,
`checkUserLimits` returns the unlimited result — which carries no
`exceeded` flag at all — for every usage store, so an unlimited plan
never reports exceeded no matter how many uses are recorded. -/
theorem exceeded_iff_limit_le_usage :
    (∀ (store : List UsageRow) (u f : String) (ps pe : Int),
      ((checkUsageLimits store u f ps pe).exceeded = true ↔
        limitFor f ≤ usageCountOf store u f ps pe))
    ∧ (∀ (subs : List SubscriptionRow) (plans : List PlanRow)
        (usage : List UsageRow) (u f : String) (ps pe : Int)
        (sub : SubscriptionRow) (plan : PlanRow),
        findSubscription subs u = some sub →
        findPlan plans (sub.plan_id.getD "") = some plan →
        planLimit plan f = none →
        checkUserLimits subs plans usage u f ps pe = .unlimited) := by
  constructor
  · intro store u f ps pe
    have hpos : 0 < limitFor f := by
      unfold limitFor
      split <;> norm_num
    unfold checkUsageLimits usageCountOf
    cases h : findUsage store u f ps pe with
    | none =>
        simp only [Bool.false_eq_true, false_iff, not_le]
        omega
    | some row =>
        simp [decide_eq_true_eq]
  · intro subs plans usage u f ps pe sub plan hsub hplan hlim
    unfold checkUserLimits
    simp only [hsub, hplan, hlim]

/-- C2 witness: a pro-plan user whose `document_analysis` limit is
stored as `null` and who has 10000 recorded uses still gets the
unlimited (never-exceeded) result. -/
theorem exceeded_iff_limit_le_usage_witness :
    checkUserLimits proSubs proPlans heavyUsage "u2" "document_analysis"
      0 100 = .unlimited :=
  exceeded_iff_limit_le_usage.2 proSubs proPlans heavyUsage
    "u2" "document_analysis" 0 100
    { user_id := "u2", plan_id := some "pro" }
    { id := "pro", features := [("document_analysis", none)] }
    (by decide) (by decide) (by decide)

/-- C3: the Basic-plan scenario.  The `document_analysis` limit the
check applies is 50; after 49 recorded uses `checkUsageLimits` returns
`{ exceeded: false, remaining: 1 }` (the `allowed: true, limit: 50`
decision), and after the fiftieth it returns
`{ exceeded: true, remaining: 0 }`. -/
theorem basic_plan_49_then_50_scenario :
    checkUsageLimits store49 "u1" "document_analysis" 0 100
        = { exceeded := false, remaining := 1 }
      ∧ limitFor "document_analysis" = 50
      ∧ checkUsageLimits store50 "u1" "document_analysis" 0 100
          = { exceeded := true, remaining := 0 } := by
  decide

/-- C4 counterexample: `checkUserLimits` does not clamp.  With the
basic plan's limit of 50 and 60 recorded uses it returns
`remaining = -10`, a negative number, where `max(0, 50 - 60) = 0`. -/
theorem check_user_limits_negative_remaining :
    checkUserLimits basicSubs basicPlans overUsage "u1" "document_analysis"
        0 100 = .limited 50 60 (-10)
      ∧ (-10 : Int) < 0
      ∧ max 0 (50 - 60 : Int) = 0 := by
  decide

/-- C4 amended: `checkUsageLimits` clamps — its `remaining` is always
non-negative, and equals `max(0, limit - usage_count)` whenever a usage
row exists — but `checkUserLimits` does not: whenever it returns the
`limited` shape, the `remaining` component is the unclamped difference
`limit - currentUsage`, which is negative once usage exceeds the
limit. -/
theorem remaining_clamped_amended :
    (∀ (store : List UsageRow) (u f : String) (ps pe : Int),
      0 ≤ (checkUsageLimits store u f ps pe).remaining)
    ∧ (∀ (store : List UsageRow) (u f : String) (ps pe : Int)
        (row : UsageRow),
        findUsage store u f ps pe = some row →
        (checkUsageLimits store u f ps pe).remaining
          = max 0 (limitFor f - row.usage_count))
    ∧ (∀ (subs : List SubscriptionRow) (plans : List PlanRow)
        (usage : List UsageRow) (u f : String) (ps pe : Int) (l c r : Int),
        checkUserLimits subs plans usage u f ps pe = .limited l c r →
        r = l - c ∧ c = usageCountOf usage u f ps pe) := by
  refine ⟨?_, ?_, ?_⟩
  · intro store u f ps pe
    unfold checkUsageLimits
    cases h : findUsage store u f ps pe with
    | none => simp
    | some row => simp
  · intro store u f ps pe row h
    unfold checkUsageLimits
    rw [h]
  · intro subs plans usage u f ps pe l c r hres
    unfold checkUserLimits at hres
    split at hres
    · simp at hres
    · split at hres
      · simp at hres
      · split at hres
        · simp at hres
        · injection hres with h1 h2 h3
          subst h1
          subst h2
          subst h3
          exact ⟨rfl, rfl⟩

/-- C4 witness: the amended theorem at the 60-of-50 store — the clamped
`remaining` of `checkUsageLimits` and the unclamped one of
`checkUserLimits`. -/
theorem remaining_clamped_amended_witness :
    (checkUsageLimits overUsage "u1" "document_analysis" 0 100).remaining
        = max 0 (limitFor "document_analysis" - 60)
      ∧ ((-10 : Int) = 50 - 60
        ∧ (60 : Int) = usageCountOf overUsage "u1" "document_analysis"
            0 100) :=
  ⟨remaining_clamped_amended.2.1 overUsage "u1" "document_analysis" 0 100
     { id := 0, user_id := "u1", feature := "document_analysis"
     , usage_count := 60, period_start := 0, period_end := 100 }
     (by decide),
   remaining_clamped_amended.2.2 basicSubs basicPlans overUsage
     "u1" "document_analysis" 0 100 50 60 (-10) (by decide)⟩

/-- C5 counterexample: the write path neither rejects nor recomputes a
caller-supplied total that disagrees with the sum.  The payload with
`tokensUsed = 100`, `inputTokens = 10`, `outputTokens = 20` passes
`usageTrackingSchema` validation and is stored verbatim: the appended
row carries `tokensUsed = 100` while `inputTokens + outputTokens = 30`. -/
theorem tokens_total_not_recomputed :
    parseUsageTracking badTotalInput = some badTotalInput
      ∧ trackUsageAction [] 0 "u1" 5 badTotalInput
          = some [mkAiUsageEvent 0 "u1" 5 badTotalInput]
      ∧ (mkAiUsageEvent 0 "u1" 5 badTotalInput).tokensUsed = 100
      ∧ badTotalInput.inputTokens + badTotalInput.outputTokens = 30
      ∧ (100 : Int) ≠ 30 := by
  decide

/-- C5 amended: `usageTrackingSchema` accepts a payload exactly when
the feature is in the closed enum, the model name is non-empty,
`tokensUsed >= 1`, `inputTokens >= 0` and `outputTokens >= 0` — no
condition relates `tokensUsed` to `inputTokens + outputTokens` — and an
accepted payload is stored verbatim, its `tokensUsed` copied unchanged
into the row. -/
theorem usage_schema_no_sum_check_amended :
    (∀ i : UsageEventInput,
      (parseUsageTracking i).isSome = true ↔
        (validFeature i.feature = true ∧ 1 ≤ i.model.length
          ∧ 1 ≤ i.tokensUsed ∧ 0 ≤ i.inputTokens ∧ 0 ≤ i.outputTokens))
    ∧ (∀ (nextId : Nat) (u : String) (now : Int) (i d : UsageEventInput),
        parseUsageTracking i = some d →
        d = i ∧ (mkAiUsageEvent nextId u now d).tokensUsed = i.tokensUsed) := by
  constructor
  · intro i
    unfold parseUsageTracking
    split
    · rename_i h
      simp only [Bool.and_eq_true, decide_eq_true_eq] at h
      simp only [Option.isSome_some, true_iff]
      exact ⟨h.1.1.1.1, h.1.1.1.2, h.1.1.2, h.1.2, h.2⟩
    · rename_i h
      simp only [Option.isSome_none, Bool.false_eq_true, false_iff, not_and]
      intro h1 h2 h3 h4 h5
      refine absurd ?_ h
      simp only [Bool.and_eq_true, decide_eq_true_eq]
      exact ⟨⟨⟨⟨h1, h2⟩, h3⟩, h4⟩, h5⟩
  · intro nextId u now i d h
    unfold parseUsageTracking at h
    split at h
    · injection h with h1
      subst h1
      exact ⟨rfl, rfl⟩
    · cases h

/-- C5 witness: the amended theorem applied to the mismatched payload —
it is accepted and its total stored unchanged. -/
theorem usage_schema_no_sum_check_amended_witness :
    badTotalInput = badTotalInput
      ∧ (mkAiUsageEvent 0 "u1" 5 badTotalInput).tokensUsed
          = badTotalInput.tokensUsed :=
  usage_schema_no_sum_check_amended.2 0 "u1" 5 badTotalInput badTotalInput
    (by decide)

/-- C6: the divide-by-zero hazard never gets the chance to fire,
because no code computes `successRate` at all.  The analytics loader
projects exactly the fields `feature`, `totalTokens`, `totalCost`,
`totalRequests` and `avgResponseTime` onto each `usageStats` row, so
reading the `successRate` property of any stat row yields `undefined`,
and the screen expression `stat.successRate.toFixed(1)` throws a
TypeError (`none`) — including on the non-empty stat list the loader
produces for a store with one recorded chat call. -/
theorem success_rate_field_missing :
    (∀ s : UsageStat, renderSuccessRateText s = none)
      ∧ loaderUsageStats aiDemoStore "u1" 0 ≠ [] := by
  constructor
  · intro s
    rfl
  · decide

/-- C7: the analytics loader is a pure read.  It leaves the usage store
unchanged, running it twice in a row from the same state yields the
same result, and its `usageStats` output depends only on the stored
events that match the user/period filter. -/
theorem aggregate_pure_read :
    ∀ (store : List AiUsageEvent) (u : String) (start : Int),
      (loaderRead store u start).2 = store
      ∧ loaderRead (loaderRead store u start).2 u start
          = loaderRead store u start
      ∧ ∀ store2 : List AiUsageEvent,
          store2.filter (inPeriod u start) = store.filter (inPeriod u start) →
          loaderUsageStats store2 u start = loaderUsageStats store u start := by
  intro store u start
  refine ⟨rfl, rfl, ?_⟩
  intro store2 h
  unfold loaderUsageStats
  rw [h]

/-- C7 witness: adding an event that falls outside the queried period
leaves the loader's aggregates unchanged. -/
theorem aggregate_pure_read_witness :
    loaderUsageStats aiDemoStoreLater "u1" 0
      = loaderUsageStats aiDemoStore "u1" 0 :=
  (aggregate_pure_read aiDemoStore "u1" 0).2.2 aiDemoStoreLater (by decide)

/-- C8: the quota check is advisory.  The `track-usage` action reads
only its payload and the analytics store, so for any quota store — in
particular one on which `checkUsageLimits` reports `exceeded = true`
for the user — a valid payload is still recorded: the action succeeds
and appends one event. -/
theorem quota_check_advisory (astore : List AiUsageEvent)
    (qstore : List UsageRow) (nextId : Nat) (u uq f : String)
    (now ps pe : Int) (i : UsageEventInput)
    (hvalid : (parseUsageTracking i).isSome = true)
    (_hexc : (checkUsageLimits qstore uq f ps pe).exceeded = true) :
    ∃ e : AiUsageEvent,
      trackUsageAction astore nextId u now i = some (astore ++ [e]) := by
  cases h : parseUsageTracking i with
  | none => simp [h] at hvalid
  | some d =>
      refine ⟨mkAiUsageEvent nextId u now d, ?_⟩
      unfold trackUsageAction
      rw [h]

/-- C8 witness: user `u1` is ten uses over the basic limit
(`exceeded = true` on `overUsage`), yet recording a fresh chat call
still succeeds and appends. -/
theorem quota_check_advisory_witness :
    ∃ e : AiUsageEvent,
      trackUsageAction [] 0 "u1" 5 chatInput = some ([] ++ [e]) :=
  quota_check_advisory [] overUsage 0 "u1" "u1" "document_analysis"
    5 0 100 chatInput (by decide) (by decide)

/-- C9 counterexample: a transition other than proposed-to-applied does
exist.  The `delete-suggestion` case of the same action removes a
stored suggestion outright: on a store holding exactly the proposed
suggestion `sg1`, it returns the empty store. -/
theorem delete_suggestion_removes_record :
    deleteSuggestion [demoSuggestion] "sg1" = []
      ∧ demoSuggestion ∈ [demoSuggestion] := by
  decide

/-- C9 amended: `apply-optimization` changes only the `isApplied` flag
(to true) and the `appliedDate` timestamp of the targeted suggestion —
every other field of every row is preserved, non-matching rows are
returned verbatim, and the store keeps its length — but the action also
offers `delete-suggestion`, which removes exactly the rows with the
given id; no rejection or expiry transition exists. -/
theorem apply_optimization_frame_amended :
    (∀ (sid : String) (now : Int) (s : Suggestion),
      (applyUpd sid now s).id = s.id
      ∧ (applyUpd sid now s).userId = s.userId
      ∧ (applyUpd sid now s).category = s.category
      ∧ (applyUpd sid now s).title = s.title
      ∧ (applyUpd sid now s).description = s.description
      ∧ (applyUpd sid now s).impact = s.impact
      ∧ (applyUpd sid now s).estimatedSavings = s.estimatedSavings
      ∧ (applyUpd sid now s).implementation = s.implementation
      ∧ (s.id ≠ sid → applyUpd sid now s = s)
      ∧ (s.id = sid →
          (applyUpd sid now s).isApplied = true
          ∧ (applyUpd sid now s).appliedDate = some now))
    ∧ (∀ (store : List Suggestion) (sid : String) (now : Int),
        applyOptimization store sid now = store.map (applyUpd sid now)
        ∧ (applyOptimization store sid now).length = store.length)
    ∧ (∀ (store : List Suggestion) (sid : String) (s : Suggestion),
        s ∈ deleteSuggestion store sid ↔ s ∈ store ∧ s.id ≠ sid) := by
  refine ⟨?_, ?_, ?_⟩
  · intro sid now s
    unfold applyUpd
    split
    · rename_i h
      refine ⟨rfl, rfl, rfl, rfl, rfl, rfl, rfl, rfl, ?_, ?_⟩
      · intro hne
        exact absurd (by simpa using h) hne
      · intro _
        exact ⟨rfl, rfl⟩
    · rename_i h
      refine ⟨rfl, rfl, rfl, rfl, rfl, rfl, rfl, rfl, fun _ => rfl, ?_⟩
      intro heq
      exact absurd heq (by simpa using h)
  · intro store sid now
    exact ⟨rfl, List.length_map store _⟩
  · intro store sid s
    unfold deleteSuggestion
    simp [List.mem_filter]

/-- C9 witness: applying the proposed suggestion `sg1` at time 9 sets
its flag and timestamp. -/
theorem apply_optimization_frame_amended_witness :
    (applyUpd "sg1" 9 demoSuggestion).isApplied = true
      ∧ (applyUpd "sg1" 9 demoSuggestion).appliedDate = some 9 :=
  (apply_optimization_frame_amended.1 "sg1" 9
    demoSuggestion).2.2.2.2.2.2.2.2.2 rfl

/-- C10: with no usage row for the user, feature and period,
`checkUsageLimits` returns `{ exceeded: false, remaining: 0 }` — the
brand-new user is reported not exceeded but with zero remaining quota,
even though the plan limit for every feature is positive. -/
theorem no_usage_row_zero_remaining (store : List UsageRow)
    (u f : String) (ps pe : Int)
    (h : findUsage store u f ps pe = none) :
    checkUsageLimits store u f ps pe
        = { exceeded := false, remaining := 0 }
      ∧ 0 < limitFor f := by
  constructor
  · unfold checkUsageLimits
    rw [h]
  · unfold limitFor
    split <;> norm_num

/-- C10 witness: the empty usage store. -/
theorem no_usage_row_zero_remaining_witness :
    checkUsageLimits [] "u1" "document_analysis" 0 100
        = { exceeded := false, remaining := 0 }
      ∧ 0 < limitFor "document_analysis" :=
  no_usage_row_zero_remaining [] "u1" "document_analysis" 0 100 rfl

end LukasAI
